import Mathlib

/-!
Verification development for the certbot repository (nginx configurator,
webroot authenticator plugin, and the filesystem compatibility layer).

Sources embedded directly:
* `src/certbot/certbot/compat/filesystem.py` (`umask`, `temp_umask`, `makedirs`)
* `src/certbot/certbot/_internal/plugins/webroot.py` (`_create_challenge_dirs`)

The nginx configurator itself (`certbot_nginx/_internal/configurator.py`,
`obj.py`, `parser.py`, and `certbot/plugins/common.py`) is not part of the
source tree here; only its test file
`src/certbot-nginx/certbot_nginx/_internal/tests/configurator_test.py` is.
Those operations are therefore modelled from the specification, as flagged in
each doc comment.
-/

/- ------------------------------------------------------------------ -/
/- Process umask state (certbot/compat/filesystem.py).                 -/
/- The process umask is modelled as an explicit `Nat` state threaded   -/
/- through every operation.  `Except ε α × Nat` is the outcome of a    -/
/- body that may raise while also leaving the state it last set.       -/
/- ------------------------------------------------------------------ -/

/-- `filesystem.umask`: set the current numeric umask and return the previous
umask (`os.umask` on Linux, the `_WindowsUmask` store on Windows; both return
the prior mask and install the new one). -/
def umask (mask : Nat) (st : Nat) : Nat × Nat := (st, mask)

/-- `filesystem.temp_umask`: apply a umask for the duration of a `with` block.
The body runs with the new mask installed; the `finally` clause restores the
previous mask on every exit path, normal or exceptional.  The body is a state
transformer that returns its outcome together with the umask it left active. -/
def temp_umask {ε α : Type} (mask : Nat) (body : Nat → Except ε α × Nat) (st : Nat) :
    Except ε α × Nat :=
  let p := umask mask st
  let r := body p.2
  (r.1, (umask p.1 r.2).2)

/-- `filesystem.makedirs`: read the current umask via `umask 0`, install
`current_umask | 0o777 ^ mode` (Python precedence: `^` binds tighter than
`|`), run `os.makedirs` (an external step, here a function of the active
umask), and restore the original umask in the `finally` clause whether the
step returned or raised. -/
def makedirs {ε : Type} (mode : Nat) (mkdirs : Nat → Except ε Unit) (st : Nat) :
    Except ε Unit × Nat :=
  let p := umask 0 st
  let current := p.1
  let q := umask (Nat.lor current (Nat.xor 511 mode)) p.2
  let r := mkdirs q.2
  (r, (umask current q.2).2)

/- ------------------------------------------------------------------ -/
/- webroot._create_challenge_dirs error handling.                      -/
/- ------------------------------------------------------------------ -/

/-- Exceptions distinguished by the handlers in `_create_challenge_dirs`:
`OSError` and `AttributeError` are the caught classes, every other exception
class is `other`. -/
inductive Exc
  | osError
  | attrError
  | other
deriving DecidableEq, Repr

/-- One directory-creation step of `_create_challenge_dirs`: the prefix either
already exists (`isdir`), or `filesystem.mkdir` runs (raising `mkdirExc` if
set) followed by `filesystem.copy_ownership_and_apply_mode` (raising
`copyExc` if set). -/
structure DirStep where
  isdir : Bool
  mkdirExc : Option Exc
  copyExc : Option Exc
deriving DecidableEq, Repr

/-- Result of the `_create_challenge_dirs` prefix loop: success with the
number of `logger.warning` calls, a `PluginError` raised from the
`except OSError` handler around `mkdir`, or an exception that no handler in
this path catches. -/
inductive DirsResult
  | ok (warnings : Nat)
  | pluginError
  | uncaught (e : Exc)
deriving DecidableEq, Repr

/-- The prefix loop of `webroot.Authenticator._create_challenge_dirs`
(lines 197-218).  For each prefix, in order: an existing directory is
skipped; otherwise `mkdir` runs inside `try ... except OSError: raise
PluginError`; on its success the ownership copy runs inside the inner
`try ... except (OSError, AttributeError)`, whose handler logs a warning and
continues with the remaining prefixes. -/
def createChallengeDirs : List DirStep → Nat → DirsResult
  | [], w => .ok w
  | p :: rest, w =>
    if p.isdir then createChallengeDirs rest w
    else
      match p.mkdirExc with
      | some Exc.osError => .pluginError
      | some e => .uncaught e
      | none =>
        match p.copyExc with
        | none => createChallengeDirs rest w
        | some Exc.osError => createChallengeDirs rest (w + 1)
        | some Exc.attrError => createChallengeDirs rest (w + 1)
        | some e => .uncaught e

/- ------------------------------------------------------------------ -/
/- Spec-modelled nginx configurator data model (spec sections 3-4).    -/
/- certbot_nginx/_internal/{configurator,obj,parser}.py are not in     -/
/- src/, so these definitions follow the specification text, pinned    -/
/- where it is silent by the reference test file                       -/
/- src/certbot-nginx/certbot_nginx/_internal/tests/configurator_test.py-/
/- ------------------------------------------------------------------ -/

/-- Modelled from the spec: the `Addr` data model of section 3 for the missing
`certbot_nginx._internal.obj.Addr` - a listening address `listen` directive
parsed into host, port, and flags.  `isDefault` records an explicit
`default_server` marker on the listen line (section 4.4 step 5). -/
structure Addr where
  host : String
  port : String
  ssl : Bool
  ipv6 : Bool
  ipv6only : Bool
  isDefault : Bool
deriving DecidableEq, Repr

/-- Modelled from the spec: the `VirtualHost` data model of section 3 for the
missing `certbot_nginx._internal.obj.VirtualHost`; server-name patterns are
kept as raw strings (section 4.3), regex forms included. -/
structure VHost where
  filep : String
  names : List String
  addrs : List Addr
deriving DecidableEq, Repr

/-- Modelled from the spec: a configuration directive (section 3) - name plus
arguments, with the managed-marker flag that tags content generated by the
tool. -/
structure Directive where
  name : String
  args : List String
  managed : Bool
deriving DecidableEq, Repr

/-- Modelled from the spec: the error taxonomy of section 7 restricted to the
errors the claims distinguish. -/
inductive NginxError
  | pluginError
  | misconfigurationError
  | alreadyPresent
deriving DecidableEq, Repr

/-- Lexicographic strict comparison of dotted version tuples, as Python
compares `self.version` tuples. -/
def versionLt : List Nat → List Nat → Bool
  | [], [] => false
  | [], _ :: _ => true
  | _ :: _, [] => false
  | a :: as, b :: bs => if a < b then true else if b < a then false else versionLt as bs

/-- Lexicographic non-strict comparison of version keys; a shorter tuple is a
prefix and compares below its extensions, matching loose-version ordering. -/
def versionLe : List Nat → List Nat → Bool
  | [], _ => true
  | _ :: _, [] => false
  | a :: as, b :: bs => if a < b then true else if b < a then false else versionLe as bs

/- ------------------------------------------------------------------ -/
/- A small regular-expression matcher for `~pattern` server names      -/
/- (spec section 4.4 step 4).  Matching is by Brzozowski derivatives;  -/
/- the parser covers the constructs the configuration dialect uses:    -/
/- literals, escapes, `.`, groups, alternation, `?`, `*`, `+`, and a   -/
/- leading `^` anchor.                                                 -/
/- ------------------------------------------------------------------ -/

/-- Regular expression syntax for server-name regex patterns. -/
inductive RE
  | emp
  | eps
  | chr (c : Char)
  | any
  | alt (a b : RE)
  | cat (a b : RE)
  | star (a : RE)
deriving DecidableEq, Repr

/-- Smart alternation keeping derivative terms small. -/
def RE.mkAlt : RE → RE → RE
  | RE.emp, b => b
  | a, RE.emp => a
  | a, b => RE.alt a b

/-- Smart concatenation keeping derivative terms small. -/
def RE.mkCat : RE → RE → RE
  | RE.emp, _ => RE.emp
  | _, RE.emp => RE.emp
  | RE.eps, b => b
  | a, RE.eps => a
  | a, b => RE.cat a b

/-- Does the expression accept the empty word? -/
def RE.nullable : RE → Bool
  | RE.emp => false
  | RE.eps => true
  | RE.chr _ => false
  | RE.any => false
  | RE.alt a b => a.nullable || b.nullable
  | RE.cat a b => a.nullable && b.nullable
  | RE.star _ => true

/-- Brzozowski derivative with respect to one character. -/
def RE.deriv : RE → Char → RE
  | RE.emp, _ => RE.emp
  | RE.eps, _ => RE.emp
  | RE.chr c, x => if x = c then RE.eps else RE.emp
  | RE.any, _ => RE.eps
  | RE.alt a b, x => RE.mkAlt (a.deriv x) (b.deriv x)
  | RE.cat a b, x =>
    if a.nullable then RE.mkAlt (RE.mkCat (a.deriv x) b) (b.deriv x)
    else RE.mkCat (a.deriv x) b
  | RE.star a, x => RE.mkCat (a.deriv x) (RE.star a)

/-- Whole-word acceptance by iterated derivatives. -/
def RE.matchList : RE → List Char → Bool
  | r, [] => r.nullable
  | r, c :: cs => (r.deriv c).matchList cs

/-- Metacharacters of the supported regex dialect. -/
def isRegexSpecial (c : Char) : Bool :=
  c = '(' || c = ')' || c = '|' || c = '?' || c = '*' || c = '+' ||
  c = '\\' || c = '.' || c = '^' || c = '$'

/-- Can the remaining input begin a new atom of a concatenation? -/
def canStartAtom : List Char → Bool
  | [] => false
  | c :: _ => c = '(' || c = '.' || c = '\\' || !isRegexSpecial c

/-- Fueled recursive-descent parser for the regex dialect.  The second
argument is the grammar level: `0` parses an alternation, `1` a
concatenation, and any other level one postfix-quantified atom. -/
def parseL : Nat → Nat → List Char → Option (RE × List Char)
  | 0, _, _ => none
  | fuel + 1, 0, s =>
    match parseL fuel 1 s with
    | none => none
    | some (a, s1) =>
      match s1 with
      | '|' :: rest =>
        match parseL fuel 0 rest with
        | none => none
        | some (b, s2) => some (RE.alt a b, s2)
      | _ => some (a, s1)
  | fuel + 1, 1, s =>
    match parseL fuel 2 s with
    | none => none
    | some (a, s1) =>
      if canStartAtom s1 then
        match parseL fuel 1 s1 with
        | none => none
        | some (b, s2) => some (RE.cat a b, s2)
      else some (a, s1)
  | fuel + 1, _, s =>
    match
      (match s with
       | '\\' :: c :: rest => some (RE.chr c, rest)
       | '.' :: rest => some (RE.any, rest)
       | '(' :: rest =>
         match parseL fuel 0 rest with
         | some (a, ')' :: s2) => some (a, s2)
         | _ => none
       | c :: rest => if isRegexSpecial c then none else some (RE.chr c, rest)
       | [] => none) with
    | none => none
    | some (a, s1) =>
      match s1 with
      | '?' :: rest => some (RE.alt a RE.eps, rest)
      | '*' :: rest => some (RE.star a, rest)
      | '+' :: rest => some (RE.cat a (RE.star a), rest)
      | _ => some (a, s1)

/-- Modelled from the spec: regex server-name matching (section 4.4 step 4)
for the missing configurator; the pattern is searched in the domain, a
leading `^` anchors it at the start. -/
def regexSearch (pattern : String) (d : String) : Bool :=
  match pattern.data with
  | '^' :: rest =>
    match parseL (4 * rest.length + 10) 0 rest with
    | some (r, []) => RE.matchList (RE.cat r (RE.star RE.any)) d.data
    | _ => false
  | cs =>
    match parseL (4 * cs.length + 10) 0 cs with
    | some (r, []) =>
      RE.matchList (RE.cat (RE.star RE.any) (RE.cat r (RE.star RE.any))) d.data
    | _ => false

/- ------------------------------------------------------------------ -/
/- Server-name matching and the Resolver (spec section 4.4).           -/
/- ------------------------------------------------------------------ -/

/-- String starts-with on the underlying character lists (kernel-reducible). -/
def strStarts (s pre : String) : Bool := List.isPrefixOf pre.data s.data

/-- String ends-with on the underlying character lists (kernel-reducible). -/
def strEnds (s suf : String) : Bool := List.isSuffixOf suf.data s.data

/-- Drop the first `n` characters of a string. -/
def strDrop (s : String) (n : Nat) : String := String.mk (s.data.drop n)

/-- Drop the last `n` characters of a string. -/
def strDropRight (s : String) (n : Nat) : String := String.mk (s.data.take (s.data.length - n))

/-- Is the pattern a `~regex` server name (spec section 4.3)? -/
def isRegexName (p : String) : Bool := strStarts p "~"

/-- Is the pattern a leading-wildcard server name: either the `*.suffix` form
or the `.suffix` shorthand (spec sections 4.3-4.4)? -/
def isLeadingWildName (p : String) : Bool :=
  !isRegexName p && (strStarts p "*." || strStarts p ".")

/-- Is the pattern a trailing-wildcard server name (`prefix.*`)? -/
def isTrailingWildName (p : String) : Bool :=
  !isRegexName p && !isLeadingWildName p && strEnds p ".*"

/-- Is the pattern a plain exact server name? -/
def isExactName (p : String) : Bool :=
  !isRegexName p && !isLeadingWildName p && !isTrailingWildName p

/-- Modelled from the spec: leading-wildcard match quality for the missing
resolver (section 4.4 step 2).  `*.X` matches any domain of the form `w.X`;
the `.X` shorthand additionally matches `X` itself.  The quality is the
length of the literal suffix `X`, so that the longest-suffix pattern wins. -/
def leadQual (d : String) (p : String) : Option Nat :=
  if isRegexName p then none
  else if strStarts p "*." then
    let x := strDrop p 2
    if strEnds d ("." ++ x) then some x.data.length else none
  else if strStarts p "." then
    let x := strDrop p 1
    if d = x || strEnds d ("." ++ x) then some x.data.length else none
  else none

/-- Modelled from the spec: trailing-wildcard match quality for the missing
resolver (section 4.4 step 3).  `X.*` matches any domain beginning with the
literal `X.`; the quality is the length of that literal. -/
def trailQual (d : String) (p : String) : Option Nat :=
  if isRegexName p || strStarts p "*." || strStarts p "." then none
  else if strEnds p ".*" then
    let x := strDropRight p 1
    if strStarts d x then some x.data.length else none
  else none

/-- Best leading-wildcard quality over one vhost's server names. -/
def vhostLeadQual (d : String) (v : VHost) : Option Nat :=
  (v.names.filterMap (leadQual d)).max?

/-- Best trailing-wildcard quality over one vhost's server names. -/
def vhostTrailQual (d : String) (v : VHost) : Option Nat :=
  (v.names.filterMap (trailQual d)).max?

/-- Does one vhost carry an exact server name equal to the domain? -/
def vhostExactHit (d : String) (v : VHost) : Bool :=
  v.names.any (fun p => isExactName p && decide (p = d))

/-- Does one vhost carry a `~regex` server name matching the domain? -/
def vhostRegexHit (d : String) (v : VHost) : Bool :=
  v.names.any (fun p => isRegexName p && regexSearch (strDrop p 1) d)

/-- The vhost with the greatest match quality; the first vhost wins ties,
vhosts without a match are skipped. -/
def argmaxQual (qual : VHost → Option Nat) (vs : List VHost) : Option VHost :=
  (vs.foldl
    (fun best v =>
      match qual v with
      | none => best
      | some q =>
        match best with
        | none => some (v, q)
        | some (w, bq) => if bq < q then some (v, q) else some (w, bq))
    none).map Prod.fst

/-- Modelled from the spec: the name-matching precedence of the missing
resolver (section 4.4 steps 1-4), evaluated across all vhosts: exact match
first, then the longest leading-wildcard match, then the longest
trailing-wildcard match, then the first syntactic regex match. -/
def chooseVhost (d : String) (vs : List VHost) : Option VHost :=
  match vs.find? (vhostExactHit d) with
  | some v => some v
  | none =>
    match argmaxQual (vhostLeadQual d) vs with
    | some v => some v
    | none =>
      match argmaxQual (vhostTrailQual d) vs with
      | some v => some v
      | none => vs.find? (vhostRegexHit d)

/-- Is this vhost explicitly marked default at the given listening port? -/
def isDefaultAt (port : String) (v : VHost) : Bool :=
  v.addrs.any (fun a => a.isDefault && decide (a.port = port))

/-- The vhosts explicitly marked default at the given listening port. -/
def defaultsAt (port : String) (vs : List VHost) : List VHost :=
  vs.filter (isDefaultAt port)

/-- The listening ports at which some vhost is explicitly marked default,
without duplicates. -/
def defaultPorts (vs : List VHost) : List String :=
  (vs.flatMap (fun v => (v.addrs.filter (fun a => a.isDefault)).map (fun a => a.port))).dedup

/-- Modelled from the spec: default-vhost fallback of the missing resolver
(section 4.4 step 5) - each listening scope (port) must carry exactly one
explicitly marked default among the candidates; zero defaults overall or two
or more defaults at the same scope is a `MisconfigurationError`. -/
def chooseDefaultVhosts (vs : List VHost) : Except NginxError (List VHost) :=
  let ports := defaultPorts vs
  if ports.isEmpty then .error .misconfigurationError
  else if ports.any (fun p => decide (2 ≤ (defaultsAt p vs).length)) then
    .error .misconfigurationError
  else .ok (ports.filterMap (fun p => (defaultsAt p vs).head?))

/-- Modelled from the spec: `choose(domain)` of the missing resolver
(section 4.4) - name-matching precedence over all vhosts with fallback to
the default virtual hosts when no server name matches. -/
def choose_vhosts (d : String) (vs : List VHost) : Except NginxError (List VHost) :=
  match chooseVhost d vs with
  | some v => .ok [v]
  | none => chooseDefaultVhosts vs

/- ------------------------------------------------------------------ -/
/- Mutator operations (spec section 4.5).                              -/
/- ------------------------------------------------------------------ -/

/-- The implicit `listen 80` a vhost without any `listen` directive gains. -/
def defaultListenAddr : Addr := ⟨"", "80", false, false, false, false⟩

/-- Modelled from the spec: the SSL `listen` handling of the missing
`deployCertificate` mutator (section 4.5) - a vhost without any listen
directive first gains the default port-80 listen; then, when no SSL listen
exists, every non-SSL listen Addr is duplicated into an SSL Addr on the
configured TLS port, preserving the host/IP and the IPv6 flags, with the
original directives kept in place. -/
def addSslAddrs (tlsPort : String) (addrs : List Addr) : List Addr :=
  let base := if addrs.isEmpty then [defaultListenAddr] else addrs
  if base.any (fun a => a.ssl) then base
  else
    base ++ (base.filter (fun a => !a.ssl)).map
      (fun a => ⟨a.host, tlsPort, true, a.ipv6, a.ipv6only, false⟩)

/-- Modelled from the spec: the missing `deployCertificate` entry point
(sections 4.5 and 6) restricted to what the claims observe - it fails with
`PluginError` when no fullchain path is supplied (the reference test
exercises this at version `(1, 3, 1)`, so the requirement holds at every
supported version), resolves the domain through the resolver with its
default fallback, and gives every resolved vhost an SSL listen. -/
def deploy_cert (version : List Nat) (fullchain : Option String) (d : String)
    (tlsPort : String) (vs : List VHost) : Except NginxError (List VHost) :=
  match fullchain with
  | none => .error .pluginError
  | some _ =>
    match choose_vhosts d vs with
    | .error _ => .error .misconfigurationError
    | .ok chosen =>
      .ok (chosen.map (fun v => ⟨v.filep, v.names, addSslAddrs tlsPort v.addrs⟩))

/-- The managed `add_header` directive inserted for one header. -/
def headerDirective (n v : String) : Directive := ⟨"add_header", [n, v], true⟩

/-- Modelled from the spec: the missing `enhanceHeader` mutator
(section 4.5) - it fails with `PluginEnhancementAlreadyPresent` when an
identical managed header directive already exists for the vhost, and
otherwise inserts exactly one managed `add_header` directive. -/
def enhanceHeader (n v : String) (dirs : List Directive) :
    Except NginxError (List Directive) :=
  if headerDirective n v ∈ dirs then .error .alreadyPresent
  else .ok (dirs ++ [headerDirective n v])

/-- Modelled from the spec: the minimum server version supporting OCSP
stapling; the reference tests pin it inside `((1,3,1), (1,6,2)]`, and
nginx introduced `ssl_stapling` in 1.3.7. -/
def minStapleVersion : List Nat := [1, 3, 7]

/-- Does a managed stapling directive exist pointing at a different chain? -/
def stapleConflict (path : String) (dirs : List Directive) : Bool :=
  dirs.any (fun dir =>
    dir.managed && decide (dir.name = "ssl_trusted_certificate") &&
      !decide (dir.args = [path]))

/-- The three stapling directives inserted by the staple enhancement. -/
def stapleDirectives (path : String) : List Directive :=
  [⟨"ssl_trusted_certificate", [path], true⟩,
   ⟨"ssl_stapling", ["on"], true⟩,
   ⟨"ssl_stapling_verify", ["on"], true⟩]

/-- Modelled from the spec: the missing `enhanceStaple` mutator
(section 4.5) - it fails with `PluginError` when the server version is below
the stapling minimum, when no chain path is supplied, or when a managed
stapling directive already points at a different chain path; otherwise it
inserts `ssl_trusted_certificate`, `ssl_stapling on` and
`ssl_stapling_verify on`. -/
def enhanceStaple (version : List Nat) (chain : Option String)
    (dirs : List Directive) : Except NginxError (List Directive) :=
  if versionLt version minStapleVersion then .error .pluginError
  else
    match chain with
    | none => .error .pluginError
    | some path =>
      if stapleConflict path dirs then .error .pluginError
      else .ok (dirs ++ stapleDirectives path)

/- ------------------------------------------------------------------ -/
/- Shared TLS options template selection (spec sections 6 and 9) and   -/
/- the shared-file update policy (spec section 4.6).                   -/
/- ------------------------------------------------------------------ -/

/-- Modelled from the spec: the numeric key of a loose version string such as
`1.0.2g`, for the missing version parsing of the configurator - numeric runs
become numbers and a letter becomes its position in the alphabet, so
`1.0.2g` sorts below `1.0.2l`. -/
def looseVersionKey (s : String) : List Nat :=
  let step := fun (acc : List Nat × Option Nat) (c : Char) =>
    if c.isDigit then
      match acc.2 with
      | some n => (acc.1, some (n * 10 + (c.toNat - 48)))
      | none => (acc.1, some (c.toNat - 48))
    else if c = '.' then
      match acc.2 with
      | some n => (acc.1 ++ [n], none)
      | none => (acc.1, none)
    else
      match acc.2 with
      | some n => (acc.1 ++ [n, c.toNat - 96], none)
      | none => (acc.1 ++ [c.toNat - 96], none)
  let r := s.data.foldl step ([], none)
  match r.2 with
  | some n => r.1 ++ [n]
  | none => r.1

/-- One row of the template-selection table: minimum server version, optional
minimum cryptographic-library version, and the selected template. -/
structure TemplateRule where
  minVersion : List Nat
  minCrypto : Option String
  templateId : String
deriving DecidableEq, Repr

/-- Modelled from the spec: the ordered `(minVersion, minCryptoVersion) ->
templateId` table of section 9, evaluated top-down with first match winning,
for the missing `mod_ssl_conf_src` property of the configurator.  The crypto
threshold `1.0.2l` is pinned by the reference test
(`test_nginx_version_uses_correct_config`): `(1,5,9)` with OpenSSL `1.0.2l`
selects the TLS1.2-only template while `(1,13,0)` with `1.0.2k` selects the
session-ticket variant. -/
def templateRules : List TemplateRule :=
  [⟨[1, 13, 0], some "1.0.2l", "options-ssl-nginx.conf"⟩,
   ⟨[1, 13, 0], none, "options-ssl-nginx-tls13-session-tix-on.conf"⟩,
   ⟨[1, 5, 9], some "1.0.2l", "options-ssl-nginx-tls12-only.conf"⟩,
   ⟨[1, 5, 9], none, "options-ssl-nginx.conf"⟩]

/-- The legacy template selected for servers older than any table row. -/
def legacyTemplate : String := "options-ssl-nginx-old.conf"

/-- Does one table row accept the detected server and crypto versions? -/
def ruleAccepts (version : List Nat) (crypto : String) (r : TemplateRule) : Bool :=
  versionLe r.minVersion version &&
    (match r.minCrypto with
     | none => true
     | some c => versionLe (looseVersionKey c) (looseVersionKey crypto))

/-- Modelled from the spec: the missing `mod_ssl_conf_src` template choice -
the first table row accepted by the detected server and crypto versions
wins, and a server below every row gets the legacy template. -/
def mod_ssl_conf_src (version : List Nat) (crypto : String) : String :=
  match templateRules.find? (ruleAccepts version crypto) with
  | some r => r.templateId
  | none => legacyTemplate

/-- The observable file state around one shared TLS options file: the
installed file's content, the recorded digest, and the sibling `.new` copy.
Contents stand in for their SHA-256 hashes (hashing is injective on the
contents this policy compares). -/
structure OptionsFileState where
  dest : Option String
  digest : Option String
  sibling : Option String
deriving DecidableEq, Repr

/-- Outcome of one `install_ssl_options_conf` call: the resulting file state
and whether `logger.warning` fired. -/
structure InstallOutcome where
  state : OptionsFileState
  warned : Bool
deriving DecidableEq, Repr

/-- Modelled from the spec: the shared-file update policy of section 4.6 for
the missing `certbot.plugins.common.install_version_controlled_file` (the
body of `install_ssl_options_conf`).  A missing file is installed and its
digest recorded.  An installed file equal to the version being installed is
left alone.  A file whose hash is in the known managed set is overwritten
freely.  Otherwise the file was manually modified: when the recorded digest
already names the version being installed the call is silent (the warning
was already recorded for this file), else the new version goes to the
sibling path, the one-time warning fires, and the digest records the new
version so later calls stay silent. -/
def install_version_controlled_file (src : String) (allHashes : List String)
    (st : OptionsFileState) : InstallOutcome :=
  match st.dest with
  | none => ⟨⟨some src, some src, st.sibling⟩, false⟩
  | some cur =>
    if cur = src then ⟨st, false⟩
    else if cur ∈ allHashes then ⟨⟨some src, some src, st.sibling⟩, false⟩
    else if st.digest = some src then ⟨st, false⟩
    else ⟨⟨st.dest, some src, some src⟩, true⟩

/-- The server names of the wildcard vhost in the reference scenario
(`sites-enabled/example.com` in the test fixture). -/
def exampleNames : List String := [".example.com", "example.*"]

/-- The server names of the regex vhost in the reference scenario (the
`localhost` server of `nginx.conf` in the test fixture). -/
def regexNames : List String := ["localhost", "~^(www\\.)?(example|bar)\\."]

/- ------------------------------------------------------------------ -/
/- Theorems.                                                           -/
/- ------------------------------------------------------------------ -/

/-- C10: `filesystem.umask` always returns the previously active mask;
`temp_umask` runs its body with the given mask installed and restores the
prior umask on every exit path, normal or exceptional, so the umask observed
after the `with` block equals the umask observed before it; `makedirs` runs
its directory-creation step under the adjusted umask and restores the umask
it changed before returning or propagating an error. -/
theorem temp_umask_restores {ε α : Type} (mask st mode : Nat)
    (body : Nat → Except ε α × Nat) (mkstep : Nat → Except ε Unit) :
    (umask mask st).1 = st ∧
    (temp_umask mask body st).2 = st ∧
    (temp_umask mask body st).1 = (body mask).1 ∧
    (makedirs mode mkstep st).2 = st ∧
    (makedirs mode mkstep st).1 = mkstep (Nat.lor st (Nat.xor 511 mode)) :=
  ⟨rfl, rfl, rfl, rfl, rfl⟩

/-- C9: in `webroot._create_challenge_dirs`, a failure of the ownership-copy
step for a directory just created (an `OSError` or `AttributeError`) is
caught, logged as a warning, and the remaining directories are still
processed; an `OSError` from the directory creation itself raises
`PluginError`; any other exception in this path, whether from `mkdir` or
from the ownership copy, propagates uncaught. -/
theorem create_challenge_dirs_error_handling (p : DirStep) (rest : List DirStep)
    (w : Nat) (hdir : p.isdir = false) :
    (p.mkdirExc = none →
      (p.copyExc = some Exc.osError ∨ p.copyExc = some Exc.attrError) →
      createChallengeDirs (p :: rest) w = createChallengeDirs rest (w + 1)) ∧
    (p.mkdirExc = some Exc.osError →
      createChallengeDirs (p :: rest) w = .pluginError) ∧
    (p.mkdirExc = some Exc.attrError →
      createChallengeDirs (p :: rest) w = .uncaught Exc.attrError) ∧
    (p.mkdirExc = some Exc.other →
      createChallengeDirs (p :: rest) w = .uncaught Exc.other) ∧
    (p.mkdirExc = none → p.copyExc = some Exc.other →
      createChallengeDirs (p :: rest) w = .uncaught Exc.other) := by
  refine ⟨?_, ?_, ?_, ?_, ?_⟩
  · intro h1 h2
    rcases h2 with h2 | h2 <;> simp [createChallengeDirs, hdir, h1, h2]
  · intro h1; simp [createChallengeDirs, hdir, h1]
  · intro h1; simp [createChallengeDirs, hdir, h1]
  · intro h1; simp [createChallengeDirs, hdir, h1]
  · intro h1 h2; simp [createChallengeDirs, hdir, h1, h2]

/-- Witness for C9: a concrete run in which the ownership copy of the first
(freshly created) prefix raises `OSError` - the loop logs one warning and
finishes the remaining (empty) list of prefixes successfully. -/
theorem create_challenge_dirs_error_handling_witness :
    createChallengeDirs [⟨false, none, some Exc.osError⟩] 0 =
      createChallengeDirs [] 1 ∧
    createChallengeDirs ([] : List DirStep) 1 = .ok 1 :=
  ⟨(create_challenge_dirs_error_handling ⟨false, none, some Exc.osError⟩ [] 0
      rfl).1 rfl (Or.inl rfl), rfl⟩

/-- C6: `deploy_cert` fails with `PluginError` whenever no fullchain path is
supplied, in particular at every modern server version that requires one
(the reference test exercises version `(1, 3, 1)`). -/
theorem deploy_cert_requires_fullchain (version : List Nat) (d tlsPort : String)
    (vs : List VHost) :
    deploy_cert version none d tlsPort vs = .error .pluginError := rfl

/-- C8: the shared TLS options template is selected from the detected server
and OpenSSL versions - version `nginx/1.6.2` with OpenSSL `1.0.2g` selects
the default (non-legacy) template, and version `nginx/1.5.8` selects the
legacy `options-ssl-nginx-old.conf` template regardless of the
cryptographic-library version; the remaining conjuncts pin the table against
the reference test `test_nginx_version_uses_correct_config`. -/
theorem mod_ssl_conf_src_template_selection :
    mod_ssl_conf_src [1, 6, 2] "1.0.2g" = "options-ssl-nginx.conf" ∧
    mod_ssl_conf_src [1, 6, 2] "1.0.2g" ≠ legacyTemplate ∧
    (∀ crypto : String, mod_ssl_conf_src [1, 5, 8] crypto = legacyTemplate) ∧
    mod_ssl_conf_src [1, 5, 9] "1.0.2l" = "options-ssl-nginx-tls12-only.conf" ∧
    mod_ssl_conf_src [1, 13, 0] "1.0.2l" = "options-ssl-nginx.conf" ∧
    mod_ssl_conf_src [1, 13, 0] "1.0.2k" =
      "options-ssl-nginx-tls13-session-tix-on.conf" :=
  ⟨rfl, by decide, fun _ => rfl, rfl, rfl, rfl⟩

/-- C1: in every configuration made of a vhost carrying
`{.example.com, example.*}` and a distinct vhost carrying
`{localhost, ~^(www\.)?(example|bar)\.}`, in either order and with arbitrary
file paths and listen addresses, resolving `www.example.com` returns the
wildcard vhost (a wildcard-suffix match) and never the regex vhost, even
though the regex vhost also regex-matches that domain (second conjunct);
the regex vhost is selected for `www.bar.co.uk`, which no exact or wildcard
pattern matches. -/
theorem choose_vhosts_wildcard_over_regex (fA fB : String) (aA aB : List Addr)
    (vs : List VHost)
    (h : vs = [⟨fA, exampleNames, aA⟩, ⟨fB, regexNames, aB⟩] ∨
         vs = [⟨fB, regexNames, aB⟩, ⟨fA, exampleNames, aA⟩]) :
    choose_vhosts "www.example.com" vs = .ok [⟨fA, exampleNames, aA⟩] ∧
    vhostRegexHit "www.example.com" ⟨fB, regexNames, aB⟩ = true ∧
    choose_vhosts "www.bar.co.uk" vs = .ok [⟨fB, regexNames, aB⟩] := by
  rcases h with h | h <;> subst h <;> exact ⟨rfl, rfl, rfl⟩

/-- Witness for C1: the two-vhost configuration of the reference fixture,
with the wildcard vhost listed first. -/
theorem choose_vhosts_wildcard_over_regex_witness :
    choose_vhosts "www.example.com"
        [⟨"sites-enabled/example.com", exampleNames, []⟩,
         ⟨"nginx.conf", regexNames, []⟩] =
      .ok [⟨"sites-enabled/example.com", exampleNames, []⟩] ∧
    vhostRegexHit "www.example.com" ⟨"nginx.conf", regexNames, []⟩ = true ∧
    choose_vhosts "www.bar.co.uk"
        [⟨"sites-enabled/example.com", exampleNames, []⟩,
         ⟨"nginx.conf", regexNames, []⟩] =
      .ok [⟨"nginx.conf", regexNames, []⟩] :=
  choose_vhosts_wildcard_over_regex "sites-enabled/example.com" "nginx.conf"
    [] [] _ (Or.inl rfl)

/-- C2: on a vhost with no SSL-enabled listen address, the listen handling of
`deploy_cert` keeps every original non-SSL listen directive and duplicates
each of them into an SSL listen on the configured TLS port preserving the
original host/IP and IPv6 flags (`1.2.3.4:80` yields `1.2.3.4:<tls-port>
ssl`, `[::]:80` yields `[::]:<tls-port> ssl`, a bare `80` yields a bare SSL
listen); a vhost with no listen directive at all gains both the port-80
listen and its SSL duplicate. -/
theorem deploy_cert_ssl_listen_duplication (tlsPort : String) (addrs : List Addr)
    (h : addrs.all (fun a => !a.ssl) = true) :
    (∀ a ∈ addrs, a ∈ addSslAddrs tlsPort addrs) ∧
    (∀ a ∈ addrs,
      (⟨a.host, tlsPort, true, a.ipv6, a.ipv6only, false⟩ : Addr) ∈
        addSslAddrs tlsPort addrs) ∧
    (addrs = [] → addSslAddrs tlsPort addrs =
      [defaultListenAddr, ⟨"", tlsPort, true, false, false, false⟩]) := by
  have hssl : ∀ a ∈ addrs, a.ssl = false := by
    intro a ha
    simpa using List.all_eq_true.mp h a ha
  by_cases he : addrs = []
  · subst he
    exact ⟨fun a ha => absurd ha (List.not_mem_nil a),
           fun a ha => absurd ha (List.not_mem_nil a),
           fun _ => rfl⟩
  · have hne : addrs.isEmpty = false := by
      simpa [List.isEmpty_iff] using he
    have hany : addrs.any (fun a => a.ssl) = false := by
      rw [Bool.eq_false_iff]
      intro hc
      obtain ⟨a, ha, hs⟩ := List.any_eq_true.mp hc
      rw [hssl a ha] at hs
      exact Bool.false_ne_true hs
    have hfilter : addrs.filter (fun a => !a.ssl) = addrs :=
      List.filter_eq_self.mpr (fun a ha => by simp [hssl a ha])
    have hout : addSslAddrs tlsPort addrs =
        addrs ++ addrs.map
          (fun a => ⟨a.host, tlsPort, true, a.ipv6, a.ipv6only, false⟩) := by
      unfold addSslAddrs
      rw [hne]
      simp only [Bool.false_eq_true, if_false, hany, hfilter]
    refine ⟨?_, ?_, fun hc => absurd hc he⟩
    · intro a ha
      rw [hout]
      exact List.mem_append_left _ ha
    · intro a ha
      rw [hout]
      exact List.mem_append_right _ (List.mem_map_of_mem _ ha)

/-- Witness for C2: a vhost listening only on `1.2.3.4:80` keeps that listen
and gains the SSL listen `1.2.3.4:5001 ssl`. -/
theorem deploy_cert_ssl_listen_duplication_witness :
    ([(⟨"1.2.3.4", "80", false, false, false, false⟩ : Addr)].all
        (fun a => !a.ssl) = true) ∧
    (⟨"1.2.3.4", "80", false, false, false, false⟩ : Addr) ∈
      addSslAddrs "5001" [⟨"1.2.3.4", "80", false, false, false, false⟩] ∧
    (⟨"1.2.3.4", "5001", true, false, false, false⟩ : Addr) ∈
      addSslAddrs "5001" [⟨"1.2.3.4", "80", false, false, false, false⟩] :=
  ⟨rfl,
   (deploy_cert_ssl_listen_duplication "5001"
       [⟨"1.2.3.4", "80", false, false, false, false⟩] rfl).1
     _ (List.mem_singleton_self _),
   (deploy_cert_ssl_listen_duplication "5001"
       [⟨"1.2.3.4", "80", false, false, false, false⟩] rfl).2.1
     _ (List.mem_singleton_self _)⟩

/-- C4: `enhance(domain, staple-ocsp, chainPath)` fails with `PluginError` in
each of the three cases - server version below the stapling minimum, absent
chain path, or a managed stapling directive already pointing at a different
chain path - and when none of these hold it inserts
`ssl_trusted_certificate <chainPath>`, `ssl_stapling on` and
`ssl_stapling_verify on` into the vhost. -/
theorem enhance_staple_ocsp_errors (version : List Nat) (chain : Option String)
    (dirs : List Directive) :
    (versionLt version minStapleVersion = true →
      enhanceStaple version chain dirs = .error .pluginError) ∧
    (chain = none → enhanceStaple version chain dirs = .error .pluginError) ∧
    (∀ path, chain = some path → stapleConflict path dirs = true →
      enhanceStaple version chain dirs = .error .pluginError) ∧
    (∀ path, chain = some path → versionLt version minStapleVersion = false →
      stapleConflict path dirs = false →
      enhanceStaple version chain dirs = .ok (dirs ++ stapleDirectives path)) := by
  refine ⟨?_, ?_, ?_, ?_⟩
  · intro hv
    simp [enhanceStaple, hv]
  · intro hc
    subst hc
    by_cases hv : versionLt version minStapleVersion = true <;>
      simp [enhanceStaple, hv]
  · intro path hc hconf
    subst hc
    by_cases hv : versionLt version minStapleVersion = true <;>
      simp [enhanceStaple, hv, hconf]
  · intro path hc hv hconf
    subst hc
    simp [enhanceStaple, hv, hconf]

/-- Witness for C4: version `(1, 3, 1)` is below the stapling minimum and the
call fails; at version `(1, 6, 2)` with a chain path and no conflicting
directive, the three stapling directives are inserted. -/
theorem enhance_staple_ocsp_errors_witness :
    versionLt [1, 3, 1] minStapleVersion = true ∧
    enhanceStaple [1, 3, 1] (some "chain_path") [] = .error .pluginError ∧
    enhanceStaple [1, 6, 2] (some "example/chain.pem") [] =
      .ok (stapleDirectives "example/chain.pem") :=
  ⟨rfl,
   (enhance_staple_ocsp_errors [1, 3, 1] (some "chain_path") []).1 rfl,
   (enhance_staple_ocsp_errors [1, 6, 2] (some "example/chain.pem") []).2.2.2
     "example/chain.pem" rfl rfl rfl⟩

/-- C5: on a vhost without the managed header directive, the first
`enhance(domain, ensure-http-header, header)` call inserts exactly one
managed `add_header` directive for that header, and a second call with an
identical header raises `PluginEnhancementAlreadyPresent` instead of
inserting a duplicate. -/
theorem enhance_header_idempotence_signal (n v : String) (dirs : List Directive)
    (h : headerDirective n v ∉ dirs) :
    enhanceHeader n v dirs = .ok (dirs ++ [headerDirective n v]) ∧
    List.countP (fun dir => decide (dir = headerDirective n v))
        (dirs ++ [headerDirective n v]) = 1 ∧
    enhanceHeader n v (dirs ++ [headerDirective n v]) = .error .alreadyPresent := by
  refine ⟨?_, ?_, ?_⟩
  · simp [enhanceHeader, h]
  · rw [List.countP_append]
    have h0 : List.countP (fun dir => decide (dir = headerDirective n v)) dirs = 0 := by
      rw [List.countP_eq_zero]
      intro d hd
      simp only [decide_eq_true_eq]
      exact fun he => h (he ▸ hd)
    simp [h0, List.countP_cons]
  · simp [enhanceHeader]

/-- Witness for C5: the HSTS header of the reference test, inserted once into
an empty vhost and rejected on the second call. -/
theorem enhance_header_idempotence_signal_witness :
    enhanceHeader "Strict-Transport-Security" "max-age=31536000" [] =
      .ok [headerDirective "Strict-Transport-Security" "max-age=31536000"] ∧
    enhanceHeader "Strict-Transport-Security" "max-age=31536000"
        [headerDirective "Strict-Transport-Security" "max-age=31536000"] =
      .error .alreadyPresent :=
  ⟨(enhance_header_idempotence_signal "Strict-Transport-Security"
      "max-age=31536000" [] (List.not_mem_nil _)).1,
   (enhance_header_idempotence_signal "Strict-Transport-Security"
      "max-age=31536000" [] (List.not_mem_nil _)).2.2⟩

/-- C7: `install_ssl_options_conf` overwrites the shared TLS options file only
when the installed file's hash matches a known managed version or the
version being installed; when it matches neither, the installed file is left
unchanged, the new version is written to the sibling path, the one-time
warning fires, and a second call on the resulting state emits no further
warning and still leaves the file unchanged. -/
theorem install_ssl_options_manual_modification (src : String)
    (hashes : List String) (st : OptionsFileState) (cur : String)
    (h : st.dest = some cur) :
    (cur ∈ hashes →
      (install_version_controlled_file src hashes st).state.dest = some src) ∧
    (cur ∉ hashes → cur ≠ src →
      (install_version_controlled_file src hashes st).state.dest = some cur) ∧
    (cur ∉ hashes → cur ≠ src → st.digest ≠ some src →
      (install_version_controlled_file src hashes st).state.sibling = some src ∧
      (install_version_controlled_file src hashes st).warned = true ∧
      (install_version_controlled_file src hashes
        (install_version_controlled_file src hashes st).state).warned = false ∧
      (install_version_controlled_file src hashes
        (install_version_controlled_file src hashes st).state).state.dest =
          some cur) := by
  refine ⟨?_, ?_, ?_⟩
  · intro hmem
    by_cases he : cur = src
    · subst he
      simp [install_version_controlled_file, h]
    · simp [install_version_controlled_file, h, he, hmem]
  · intro hmem hne
    by_cases hd : st.digest = some src <;>
      simp [install_version_controlled_file, h, hne, hmem, hd]
  · intro hmem hne hd
    simp [install_version_controlled_file, h, hne, hmem, hd]

/-- Witness for C7: a manually modified installed file (`MOD`) whose hash is
neither in the known set nor equal to the incoming version (`NEW`), with a
stale recorded digest: the file stays, the sibling receives the new version,
the warning fires once, and the repeat call is silent. -/
theorem install_ssl_options_manual_modification_witness :
    (install_version_controlled_file "NEW" ["KNOWN"]
        ⟨some "MOD", some "OLDDIGEST", none⟩).state.sibling = some "NEW" ∧
    (install_version_controlled_file "NEW" ["KNOWN"]
        ⟨some "MOD", some "OLDDIGEST", none⟩).warned = true ∧
    (install_version_controlled_file "NEW" ["KNOWN"]
        (install_version_controlled_file "NEW" ["KNOWN"]
          ⟨some "MOD", some "OLDDIGEST", none⟩).state).warned = false ∧
    (install_version_controlled_file "NEW" ["KNOWN"]
        (install_version_controlled_file "NEW" ["KNOWN"]
          ⟨some "MOD", some "OLDDIGEST", none⟩).state).state.dest = some "MOD" :=
  (install_ssl_options_manual_modification "NEW" ["KNOWN"]
      ⟨some "MOD", some "OLDDIGEST", none⟩ "MOD" rfl).2.2
    (by decide) (by decide) (by decide)

/-- Case analysis for the default-vhost fallback: either it fails with
`MisconfigurationError` and there is no default at all or some listening
scope carries two or more defaults, or it succeeds and every scope carries
at most one default with at least one default present. -/
theorem chooseDefaultVhosts_cases (vs : List VHost) :
    (chooseDefaultVhosts vs = .error .misconfigurationError ∧
      (defaultPorts vs = [] ∨ ∃ p ∈ defaultPorts vs, 2 ≤ (defaultsAt p vs).length)) ∨
    ((∃ out, chooseDefaultVhosts vs = .ok out) ∧
      defaultPorts vs ≠ [] ∧ ∀ p ∈ defaultPorts vs, (defaultsAt p vs).length ≤ 1) := by
  by_cases h1 : (defaultPorts vs).isEmpty = true
  · left
    refine ⟨?_, Or.inl (List.isEmpty_iff.mp h1)⟩
    unfold chooseDefaultVhosts
    simp [h1]
  · by_cases h2 : (defaultPorts vs).any
        (fun p => decide (2 ≤ (defaultsAt p vs).length)) = true
    · left
      constructor
      · unfold chooseDefaultVhosts
        simp [h1, h2]
      · right
        obtain ⟨p, hp, hq⟩ := List.any_eq_true.mp h2
        exact ⟨p, hp, of_decide_eq_true hq⟩
    · right
      refine ⟨⟨(defaultPorts vs).filterMap (fun p => (defaultsAt p vs).head?),
          ?_⟩, ?_, ?_⟩
      · unfold chooseDefaultVhosts
        simp [h1, h2]
      · intro hc
        exact h1 (by simp [hc])
      · intro p hp
        by_contra hlen
        push_neg at hlen
        exact h2 (List.any_eq_true.mpr ⟨p, hp, decide_eq_true (by omega)⟩)

/-- C3: for a domain matched by no vhost's server-name patterns, resolution
falls back to the default virtual hosts, and `deploy_cert` then fails with
`MisconfigurationError` exactly when no default vhost exists at any
listening scope or some listening scope carries more than one default;
defaults at distinct listening scopes are accepted and resolution
succeeds. -/
theorem deploy_cert_default_fallback (version : List Nat) (fc d tlsPort : String)
    (vs : List VHost) (h : chooseVhost d vs = none) :
    (deploy_cert version (some fc) d tlsPort vs = .error .misconfigurationError ↔
      (defaultPorts vs = [] ∨ ∃ p ∈ defaultPorts vs, 2 ≤ (defaultsAt p vs).length)) ∧
    ((defaultPorts vs ≠ [] ∧ ∀ p ∈ defaultPorts vs, (defaultsAt p vs).length ≤ 1) →
      ∃ out, deploy_cert version (some fc) d tlsPort vs = .ok out) := by
  have key : deploy_cert version (some fc) d tlsPort vs =
      match chooseDefaultVhosts vs with
      | .error _ => .error .misconfigurationError
      | .ok chosen =>
        .ok (chosen.map (fun v => ⟨v.filep, v.names, addSslAddrs tlsPort v.addrs⟩)) := by
    unfold deploy_cert choose_vhosts
    rw [h]
  rcases chooseDefaultVhosts_cases vs with ⟨herr, hcond⟩ | ⟨⟨out, hok⟩, hne, hall⟩
  · rw [herr] at key
    constructor
    · rw [key]
      exact ⟨fun _ => hcond, fun _ => rfl⟩
    · rintro ⟨hne, hall⟩
      rcases hcond with hc | ⟨p, hp, h2⟩
      · exact absurd hc hne
      · have := hall p hp
        omega
  · rw [hok] at key
    constructor
    · rw [key]
      constructor
      · intro hc
        exact absurd hc (by simp)
      · intro hc
        rcases hc with hc | ⟨p, hp, h2⟩
        · exact absurd hc hne
        · have := hall p hp
          omega
    · intro hyp
      exact ⟨_, key⟩

/-- Witness for C3: `www.nomatch.com` matches no server name of the two-vhost
configuration, the two default vhosts sit at the distinct listening scopes
`80` and `5001`, and deployment succeeds. -/
theorem deploy_cert_default_fallback_witness :
    chooseVhost "www.nomatch.com"
        [⟨"sites-enabled/default", ["www.example.org"],
           [⟨"myhost", "80", false, false, false, true⟩]⟩,
         ⟨"foo.conf", ["*.www.foo.com"],
           [⟨"*", "5001", false, false, false, true⟩]⟩] = none ∧
    ∃ out, deploy_cert [1, 3, 1] (some "example/fullchain.pem") "www.nomatch.com"
        "5001"
        [⟨"sites-enabled/default", ["www.example.org"],
           [⟨"myhost", "80", false, false, false, true⟩]⟩,
         ⟨"foo.conf", ["*.www.foo.com"],
           [⟨"*", "5001", false, false, false, true⟩]⟩] = .ok out :=
  ⟨rfl,
   (deploy_cert_default_fallback [1, 3, 1] "example/fullchain.pem"
       "www.nomatch.com" "5001"
       [⟨"sites-enabled/default", ["www.example.org"],
          [⟨"myhost", "80", false, false, false, true⟩]⟩,
        ⟨"foo.conf", ["*.www.foo.com"],
          [⟨"*", "5001", false, false, false, true⟩]⟩] rfl).2
     ⟨by decide, by decide⟩⟩
